import Mathlib

/-!
# Verification of the wof-explorer core against its specification

This file gives a shallow embedding of the core data model and operations of
the wof-explorer repository (geometry/bounds utilities, filter models, query
builder, search cursor) and proves or refutes the frozen claims about them.

The `wof_explorer` package sources are not part of the provided tree; only the
repository's test suite is. Every operational definition below is therefore
modelled from the natural-language specification, refined by the behaviour
pinned down in the repository's unit tests (which are given in full). Each
such definition carries a doc comment naming its origin.

Coordinates are embedded as rational numbers: every coordinate literal used by
the repository's tests is an exact decimal fraction, and the operations the
claims mention use only field operations and comparisons, on which `ℚ`
behaves exactly like the Python floats at these magnitudes.
-/

unseal Rat.add Rat.sub Rat.mul Rat.inv Rat.ofScientific

deriving instance DecidableEq for Except

namespace WofExplorer

/-! ## Bounds (models/geometry.py : WOFBounds) -/

/-- A constructed bounding box: `min_lon, min_lat, max_lon, max_lat`.
Modelled from the spec: §3 "Bounds" and §4.7 of the spec for the missing
`wof_explorer/models/geometry.py`. -/
structure WOFBounds where
  min_lon : ℚ
  min_lat : ℚ
  max_lon : ℚ
  max_lat : ℚ
deriving DecidableEq, Repr

/-- Modelled from the spec: validating constructor of `WOFBounds` in the
missing `wof_explorer/models/geometry.py`. The spec (§3, §4.7) requires
lon ∈ [-180,180], lat ∈ [-90,90] and `max_lat ≥ min_lat`; the repository's
tests additionally pin down that an inverted longitude pair is only accepted
as the antimeridian-crossing encoding when it actually crosses the dateline
(`min_lon > 0 > max_lon`, test_dateline_crossing_allowed), while a
non-crossing inversion raises "max_lon must be >= min_lon"
(test_max_less_than_min_raises_error). -/
def WOFBounds.validate (min_lon min_lat max_lon max_lat : ℚ) :
    Except String WOFBounds :=
  if ¬ (-180 ≤ min_lon ∧ min_lon ≤ 180 ∧ -180 ≤ max_lon ∧ max_lon ≤ 180) then
    .error "longitude must be between -180 and 180"
  else if ¬ (-90 ≤ min_lat ∧ min_lat ≤ 90 ∧ -90 ≤ max_lat ∧ max_lat ≤ 90) then
    .error "latitude must be between -90 and 90"
  else if max_lat < min_lat then
    .error "max_lat must be >= min_lat"
  else if max_lon < min_lon ∧ ¬ (min_lon > 0 ∧ max_lon < 0) then
    .error "max_lon must be >= min_lon"
  else
    .ok ⟨min_lon, min_lat, max_lon, max_lat⟩

/-- `true` when the box uses the antimeridian-crossing encoding
(`min_lon > max_lon`). Modelled from the spec: §4.7. -/
def WOFBounds.crosses_dateline (b : WOFBounds) : Bool :=
  decide (b.max_lon < b.min_lon)

/-- Modelled from the spec: `WOFBounds.contains_point(lon, lat)` in the
missing `wof_explorer/models/geometry.py`; boundary inclusive (§8) and
honouring the antimeridian crossing (§4.7): when crossing, a longitude is
inside when it is ≥ `min_lon` or ≤ `max_lon`. -/
def WOFBounds.contains_point (b : WOFBounds) (lon lat : ℚ) : Bool :=
  decide (b.min_lat ≤ lat ∧ lat ≤ b.max_lat) &&
    (if b.crosses_dateline then
      decide (b.min_lon ≤ lon ∨ lon ≤ b.max_lon)
    else
      decide (b.min_lon ≤ lon ∧ lon ≤ b.max_lon))

/-- Modelled from the spec: `WOFBounds.get_width()`; §4.7 gives the crossing
formula `(180 - min_lon) + (max_lon + 180)`. -/
def WOFBounds.get_width (b : WOFBounds) : ℚ :=
  if b.crosses_dateline then (180 - b.min_lon) + (b.max_lon + 180)
  else b.max_lon - b.min_lon

/-- Modelled from the spec: `WOFBounds.get_height()`. -/
def WOFBounds.get_height (b : WOFBounds) : ℚ :=
  b.max_lat - b.min_lat

end WofExplorer

namespace WofExplorer

/-! ## Claims C1 and C2 -/

/-- **C1 counterexample.** The claim states that whenever the longitudes are in
[-180,180], the latitudes in [-90,90] and `max_lat ≥ min_lat`, a value with
`min_lon > max_lon` is accepted and construction succeeds, "only max_lat <
min_lat raises". The repository's test
`TestWOFBounds.test_max_less_than_min_raises_error` constructs exactly such a
value, `WOFBounds(min_lon=-59.4, min_lat=13.0, max_lon=-59.7, max_lat=13.4)`
(in range, `max_lat ≥ min_lat`, `min_lon > max_lon`), and requires it to raise
`ValueError("max_lon must be >= min_lon")`: construction fails there. -/
theorem bounds_validation_c1_counterexample :
    ((-180 ≤ (-59.4 : ℚ) ∧ (-59.4 : ℚ) ≤ 180 ∧ -180 ≤ (-59.7 : ℚ) ∧ (-59.7 : ℚ) ≤ 180) ∧
      (-90 ≤ (13.0 : ℚ) ∧ (13.0 : ℚ) ≤ 90 ∧ -90 ≤ (13.4 : ℚ) ∧ (13.4 : ℚ) ≤ 90) ∧
      (13.0 : ℚ) ≤ 13.4 ∧ (-59.7 : ℚ) < -59.4) ∧
    WOFBounds.validate (-59.4) 13.0 (-59.7) 13.4 =
      .error "max_lon must be >= min_lon" := by
  decide

/-- **C1 (amended).** For in-range longitudes and latitudes:
an inverted longitude pair is accepted as the antimeridian-crossing encoding
exactly when it genuinely crosses the dateline (`min_lon > 0 > max_lon`);
a non-crossing inversion raises "max_lon must be >= min_lon"; and
`max_lat < min_lat` always raises "max_lat must be >= min_lat". -/
theorem bounds_validation_c1_amended (min_lon min_lat max_lon max_lat : ℚ)
    (hlon : -180 ≤ min_lon ∧ min_lon ≤ 180 ∧ -180 ≤ max_lon ∧ max_lon ≤ 180)
    (hlat : -90 ≤ min_lat ∧ min_lat ≤ 90 ∧ -90 ≤ max_lat ∧ max_lat ≤ 90) :
    (min_lat ≤ max_lat → 0 < min_lon → max_lon < 0 →
      WOFBounds.validate min_lon min_lat max_lon max_lat =
        .ok ⟨min_lon, min_lat, max_lon, max_lat⟩) ∧
    (min_lat ≤ max_lat → max_lon < min_lon → ¬ (0 < min_lon ∧ max_lon < 0) →
      WOFBounds.validate min_lon min_lat max_lon max_lat =
        .error "max_lon must be >= min_lon") ∧
    (max_lat < min_lat →
      WOFBounds.validate min_lon min_lat max_lon max_lat =
        .error "max_lat must be >= min_lat") := by
  refine ⟨fun hle hpos hneg => ?_, fun hle hinv hnc => ?_, fun hlt => ?_⟩ <;>
    rw [WOFBounds.validate, if_neg (not_not_intro hlon), if_neg (not_not_intro hlat)]
  · rw [if_neg (not_lt.mpr hle), if_neg (fun h => h.2 ⟨hpos, hneg⟩)]
  · rw [if_neg (not_lt.mpr hle), if_pos ⟨hinv, fun h => hnc ⟨h.1, h.2⟩⟩]
  · rw [if_pos hlt]

/-- Witness for the amended C1 at the concrete inputs of the repository's
dateline tests: `(170, 10, -170, 20)` is accepted, the non-crossing inversion
`(-59.4, 13.0, -59.7, 13.4)` raises the longitude error, and
`(-59.7, 13.4, -59.4, 13.0)` raises the latitude error. -/
theorem bounds_validation_c1_amended_witness :
    WOFBounds.validate 170 10 (-170) 20 = .ok ⟨170, 10, -170, 20⟩ ∧
    WOFBounds.validate (-59.4) 13.0 (-59.7) 13.4 =
      .error "max_lon must be >= min_lon" ∧
    WOFBounds.validate (-59.7) 13.4 (-59.4) 13.0 =
      .error "max_lat must be >= min_lat" :=
  ⟨(bounds_validation_c1_amended 170 10 (-170) 20 (by decide) (by decide)).1
      (by decide) (by decide) (by decide),
    (bounds_validation_c1_amended (-59.4) 13.0 (-59.7) 13.4 (by decide) (by decide)).2.1
      (by decide) (by decide) (by decide),
    (bounds_validation_c1_amended (-59.7) 13.4 (-59.4) 13.0 (by decide) (by decide)).2.2
      (by decide)⟩

/-- **C2.** For the dateline-crossing bounds `min_lon=170, max_lon=-170`:
`contains_point(175, y)` and `contains_point(-175, y)` hold for every
latitude `y` within `[min_lat, max_lat] = [10, 20]`, `contains_point(0, y)`
is false, and `get_width()` equals `20 = (180 - 170) + (-170 + 180)`. -/
theorem dateline_bounds_c2 (y : ℚ) (h1 : 10 ≤ y) (h2 : y ≤ 20) :
    (WOFBounds.mk 170 10 (-170) 20).contains_point 175 y = true ∧
    (WOFBounds.mk 170 10 (-170) 20).contains_point (-175) y = true ∧
    (WOFBounds.mk 170 10 (-170) 20).contains_point 0 y = false ∧
    (WOFBounds.mk 170 10 (-170) 20).get_width = 20 := by
  simp only [WOFBounds.contains_point, WOFBounds.crosses_dateline, WOFBounds.get_width]
  norm_num [h1, h2]

/-- Witness for C2 at the latitude `y = 15` used by
`TestBoundsDatelineCrossing.test_dateline_crossing_contains_point`. -/
theorem dateline_bounds_c2_witness :
    ((10 : ℚ) ≤ 15 ∧ (15 : ℚ) ≤ 20) ∧
    ((WOFBounds.mk 170 10 (-170) 20).contains_point 175 15 = true ∧
      (WOFBounds.mk 170 10 (-170) 20).contains_point (-175) 15 = true ∧
      (WOFBounds.mk 170 10 (-170) 20).contains_point 0 15 = false ∧
      (WOFBounds.mk 170 10 (-170) 20).get_width = 20) :=
  ⟨by decide, dateline_bounds_c2 15 (by decide) (by decide)⟩

/-! ## Geometry (models/geometry.py : WOFGeometry) -/

/-- A GeoJSON coordinates value: a number or a nested array, mirroring the
`coordinates` member of a GeoJSON dictionary. -/
inductive Coords where
  | num (q : ℚ)
  | arr (items : List Coords)
deriving Repr

/-- A single GeoJSON position `[lon, lat]`. -/
def coords_is_position : Coords → Bool
  | .arr [.num _, .num _] => true
  | _ => false

/-- An array of positions (a LineString's coordinates, or one ring). -/
def coords_is_position_array : Coords → Bool
  | .arr pts => pts.all coords_is_position
  | _ => false

/-- An array of rings (a Polygon's coordinates) or of lines. -/
def coords_is_ring_array : Coords → Bool
  | .arr rings => rings.all coords_is_position_array
  | _ => false

/-- An array of polygons (a MultiPolygon's coordinates). -/
def coords_is_polygon_array : Coords → Bool
  | .arr polys => polys.all coords_is_ring_array
  | _ => false

/-- Modelled from the spec: per-type coordinate-arity validation carried out
by the `WOFGeometry` constructor of the missing
`wof_explorer/models/geometry.py` (§3 "Construction validates coordinate
arity per type and fails otherwise"). An unrecognized type is accepted, as
pinned down by `test_unknown_geometry_type_to_wkt`, which constructs a
`WOFGeometry(type="UnknownType")` successfully. -/
def coords_valid_for (ty : String) (c : Coords) : Bool :=
  if ty = "Point" then coords_is_position c
  else if ty = "LineString" then coords_is_position_array c
  else if ty = "Polygon" then coords_is_ring_array c
  else if ty = "MultiLineString" then coords_is_ring_array c
  else if ty = "MultiPolygon" then coords_is_polygon_array c
  else true

/-- The per-type validation error message, as asserted by the repository's
tests (e.g. "Point must have [lon, lat]"). -/
def geometry_arity_error (ty : String) : String :=
  if ty = "Point" then "Point must have [lon, lat] coordinates"
  else if ty = "LineString" then "LineString must have list of positions"
  else if ty = "Polygon" then "Polygon must have list of rings coordinates"
  else if ty = "MultiLineString" then "MultiLineString must have list of lines"
  else "MultiPolygon must have list of polygons coordinates"

/-- A constructed geometry value. -/
structure WOFGeometry where
  type : String
  coordinates : Coords
  precision : String
deriving Repr

/-- Modelled from the spec: the validating `WOFGeometry` constructor of the
missing `wof_explorer/models/geometry.py`. -/
def mk_geometry (ty : String) (coords : Coords) (precision : String) :
    Except String WOFGeometry :=
  if coords_valid_for ty coords then .ok ⟨ty, coords, precision⟩
  else .error (geometry_arity_error ty)

/-- Modelled from the spec: `WOFGeometry.to_geojson()` returns the GeoJSON
dictionary `(type, coordinates)` of the geometry (§4.7; the tests inspect
exactly the keys "type" and "coordinates"). -/
def WOFGeometry.to_geojson (g : WOFGeometry) : String × Coords :=
  (g.type, g.coordinates)

/-- **C8.** Feeding `to_geojson()` back into the constructor succeeds and
reproduces the identical type and coordinates, for every geometry `g` that
itself came out of the validating constructor. -/
theorem geometry_roundtrip_c8 (ty : String) (c : Coords) (pr : String)
    (g : WOFGeometry) (h : mk_geometry ty c pr = .ok g) :
    ∃ g2 : WOFGeometry,
      mk_geometry g.to_geojson.1 g.to_geojson.2 "exact" = .ok g2 ∧
      g2.type = g.type ∧ g2.coordinates = g.coordinates := by
  unfold mk_geometry at h
  by_cases hv : coords_valid_for ty c = true
  · rw [if_pos hv] at h
    injection h with h
    subst h
    refine ⟨⟨ty, c, "exact"⟩, ?_, rfl, rfl⟩
    simp only [WOFGeometry.to_geojson, mk_geometry, if_pos hv]
  · rw [if_neg hv] at h
    exact absurd h (by simp)

/-- The exact sample Point coordinates of the repository's geometry tests. -/
def sample_point_coords : Coords := .arr [.num (-59.6166), .num 13.0969]

/-- Witness for C8 at the sample Point geometry of
`TestGeometrySerialization.test_point_to_geojson`. -/
theorem geometry_roundtrip_c8_witness :
    ∃ g2 : WOFGeometry,
      mk_geometry (WOFGeometry.mk "Point" sample_point_coords "exact").to_geojson.1
          (WOFGeometry.mk "Point" sample_point_coords "exact").to_geojson.2 "exact" =
        .ok g2 ∧
      g2.type = (WOFGeometry.mk "Point" sample_point_coords "exact").type ∧
      g2.coordinates = (WOFGeometry.mk "Point" sample_point_coords "exact").coordinates :=
  geometry_roundtrip_c8 "Point" sample_point_coords "exact"
    ⟨"Point", sample_point_coords, "exact"⟩ rfl

/-! ## Point-in-polygon (processing/spatial.py : point_in_geojson_geometry) -/

/-- One linear ring: a closed list of `(lon, lat)` positions. -/
abbrev LinearRing := List (ℚ × ℚ)

/-- Modelled from the spec: the boundary test of the ray-casting
point-in-polygon routine in the missing `wof_explorer/processing/spatial.py`
(§4.7 "boundary points count as inside"): the point lies on the segment from
`(x1, y1)` to `(x2, y2)` when the cross product vanishes and the point falls
in the segment's bounding box. -/
def point_on_segment (px py x1 y1 x2 y2 : ℚ) : Bool :=
  decide ((x2 - x1) * (py - y1) - (y2 - y1) * (px - x1) = 0 ∧
    min x1 x2 ≤ px ∧ px ≤ max x1 x2 ∧ min y1 y2 ≤ py ∧ py ≤ max y1 y2)

/-- Modelled from the spec: one edge's contribution to the ray-casting parity
count (§4.7 "ray-casting algorithm"): the horizontal ray from the point going
left crosses the edge when the edge straddles the point's latitude and the
point is left of the edge's intersection with that latitude. -/
def edge_crosses_ray (px py x1 y1 x2 y2 : ℚ) : Bool :=
  (decide (py < y1) != decide (py < y2)) &&
    decide (px < (x2 - x1) * (py - y1) / (y2 - y1) + x1)

/-- The consecutive edges of a ring (the ring is stored closed, so the last
position equals the first). -/
def ring_edges : LinearRing → List ((ℚ × ℚ) × (ℚ × ℚ))
  | a :: b :: rest => (a, b) :: ring_edges (b :: rest)
  | _ => []

/-- Modelled from the spec: point-in-ring via edge-inclusive ray casting:
the point is inside when it lies on some edge, or when the leftward ray
crosses an odd number of edges. -/
def point_in_ring (px py : ℚ) (ring : LinearRing) : Bool :=
  (ring_edges ring).any
      (fun e => point_on_segment px py e.1.1 e.1.2 e.2.1 e.2.2) ||
    (ring_edges ring).foldl
      (fun inside e =>
        if edge_crosses_ray px py e.1.1 e.1.2 e.2.1 e.2.2 then !inside else inside)
      false

/-- A point is inside a ring set when it is inside some ring of the set. -/
def point_in_rings (px py : ℚ) (rings : List LinearRing) : Bool :=
  rings.any (point_in_ring px py)

/-- The GeoJSON geometries accepted by the containment routine. -/
inductive GeoJSONGeometry where
  | point (lon lat : ℚ)
  | polygon (rings : List LinearRing)
  | multiPolygon (polygons : List (List LinearRing))
  | unsupported
deriving Repr

/-- Modelled from the spec: `point_in_geojson_geometry(x, y, geom)` of the
missing `wof_explorer/processing/spatial.py`: ray casting over the ring sets
of a Polygon or MultiPolygon; any other geometry type contains no point. -/
def point_in_geojson_geometry (px py : ℚ) : GeoJSONGeometry → Bool
  | .polygon rings => point_in_rings px py rings
  | .multiPolygon polygons => polygons.any (point_in_rings px py)
  | _ => false

/-- All rings of a geometry (the rings of every polygon for MultiPolygon). -/
def GeoJSONGeometry.all_rings : GeoJSONGeometry → List LinearRing
  | .polygon rings => rings
  | .multiPolygon polygons => polygons.flatten
  | _ => []

/-- A point `a + t • (b - a)`, `t ∈ [0, 1]`, stays between `a` and `b`. -/
theorem param_between (a b t : ℚ) (h0 : 0 ≤ t) (h1 : t ≤ 1) :
    min a b ≤ a + t * (b - a) ∧ a + t * (b - a) ≤ max a b := by
  rcases le_total a b with h | h
  · rw [min_eq_left h, max_eq_right h]
    constructor <;>
      nlinarith [mul_nonneg h0 (sub_nonneg.mpr h),
        mul_nonneg (sub_nonneg.mpr h1) (sub_nonneg.mpr h)]
  · rw [min_eq_right h, max_eq_left h]
    constructor <;>
      nlinarith [mul_nonneg h0 (sub_nonneg.mpr h),
        mul_nonneg (sub_nonneg.mpr h1) (sub_nonneg.mpr h)]

/-- Every convex combination of an edge's endpoints passes the boundary
test `point_on_segment`. -/
theorem point_on_segment_of_param (x1 y1 x2 y2 t : ℚ) (h0 : 0 ≤ t) (h1 : t ≤ 1) :
    point_on_segment (x1 + t * (x2 - x1)) (y1 + t * (y2 - y1)) x1 y1 x2 y2 = true := by
  unfold point_on_segment
  rw [decide_eq_true_eq]
  obtain ⟨hx1, hx2⟩ := param_between x1 x2 t h0 h1
  obtain ⟨hy1, hy2⟩ := param_between y1 y2 t h0 h1
  exact ⟨by ring, hx1, hx2, hy1, hy2⟩

/-- A point on some edge of a ring is reported inside the ring. -/
theorem point_in_ring_of_on_edge (px py : ℚ) (ring : LinearRing)
    (e : (ℚ × ℚ) × (ℚ × ℚ)) (he : e ∈ ring_edges ring)
    (hseg : point_on_segment px py e.1.1 e.1.2 e.2.1 e.2.2 = true) :
    point_in_ring px py ring = true := by
  unfold point_in_ring
  rw [Bool.or_eq_true]
  exact Or.inl (List.any_eq_true.mpr ⟨e, he, hseg⟩)

/-- The unit-square Polygon of `test_point_in_polygon_basic`. -/
def unit_square_polygon : GeoJSONGeometry :=
  .polygon [[(-1, -1), (1, -1), (1, 1), (-1, 1), (-1, -1)]]

/-- The two-square MultiPolygon of `test_point_in_multipolygon`. -/
def two_square_multipolygon : GeoJSONGeometry :=
  .multiPolygon
    [[[(10, 10), (12, 10), (12, 12), (10, 12), (10, 10)]],
      [[(-2, -2), (2, -2), (2, 2), (-2, 2), (-2, -2)]]]

/-- **C3.** The point-in-polygon test is boundary-inclusive: every point on an
edge of any ring of a Polygon or MultiPolygon (written as `a + t • (b - a)`
with `t ∈ [0, 1]` along the edge from `a` to `b`) is reported inside.
In addition, on the repository's test fixtures, strictly interior points are
reported inside and exterior points outside. -/
theorem point_in_polygon_boundary_c3 (g : GeoJSONGeometry) (ring : LinearRing)
    (e : (ℚ × ℚ) × (ℚ × ℚ)) (t : ℚ) (hring : ring ∈ g.all_rings)
    (he : e ∈ ring_edges ring) (h0 : 0 ≤ t) (h1 : t ≤ 1) :
    point_in_geojson_geometry (e.1.1 + t * (e.2.1 - e.1.1))
      (e.1.2 + t * (e.2.2 - e.1.2)) g = true ∧
    point_in_geojson_geometry 0 0 unit_square_polygon = true ∧
    point_in_geojson_geometry 0.9 0.9 unit_square_polygon = true ∧
    point_in_geojson_geometry 1.1 0 unit_square_polygon = false ∧
    point_in_geojson_geometry 0 0 two_square_multipolygon = true ∧
    point_in_geojson_geometry 11 11 two_square_multipolygon = true ∧
    point_in_geojson_geometry 20 20 two_square_multipolygon = false := by
  refine ⟨?_, by decide, by decide, by decide, by decide, by decide, by decide⟩
  have hin : point_in_ring (e.1.1 + t * (e.2.1 - e.1.1))
      (e.1.2 + t * (e.2.2 - e.1.2)) ring = true :=
    point_in_ring_of_on_edge _ _ ring e he
      (point_on_segment_of_param e.1.1 e.1.2 e.2.1 e.2.2 t h0 h1)
  cases g with
  | point lon lat => simp [GeoJSONGeometry.all_rings] at hring
  | unsupported => simp [GeoJSONGeometry.all_rings] at hring
  | polygon rings =>
      exact List.any_eq_true.mpr ⟨ring, hring, hin⟩
  | multiPolygon polygons =>
      obtain ⟨rs, hrs, hr⟩ := List.mem_flatten.mp hring
      exact List.any_eq_true.mpr ⟨rs, hrs, List.any_eq_true.mpr ⟨ring, hr, hin⟩⟩

/-- Witness for C3: the boundary point `(1.0, 0.5)` of
`test_point_in_polygon_basic`, realised as the parameter `t = 3/4` along the
square's right edge from `(1, -1)` to `(1, 1)`. -/
theorem point_in_polygon_boundary_c3_witness :
    point_in_geojson_geometry (1 + 3/4 * (1 - 1)) (-1 + 3/4 * (1 - -1))
      unit_square_polygon = true ∧
    point_in_geojson_geometry 0 0 unit_square_polygon = true ∧
    point_in_geojson_geometry 0.9 0.9 unit_square_polygon = true ∧
    point_in_geojson_geometry 1.1 0 unit_square_polygon = false ∧
    point_in_geojson_geometry 0 0 two_square_multipolygon = true ∧
    point_in_geojson_geometry 11 11 two_square_multipolygon = true ∧
    point_in_geojson_geometry 20 20 two_square_multipolygon = false :=
  point_in_polygon_boundary_c3 unit_square_polygon
    [(-1, -1), (1, -1), (1, 1), (-1, 1), (-1, -1)] ((1, -1), (1, 1)) (3/4)
    (by decide) (by decide) (by decide) (by decide)

/-! ## Placetype vocabulary and filter models (types.py, models/filters.py) -/

/-- Modelled from the spec: the closed placetype taxonomy (§3, glossary). -/
inductive PlaceType where
  | country
  | region
  | county
  | locality
  | neighbourhood
  | venue
  | custom
deriving DecidableEq, Repr

/-- The string code of a placetype, as used in serialized filters. -/
def placetype_code : PlaceType → String
  | .country => "country"
  | .region => "region"
  | .county => "county"
  | .locality => "locality"
  | .neighbourhood => "neighbourhood"
  | .venue => "venue"
  | .custom => "custom"

/-- Modelled from the spec: coercion of a raw placetype token to the enum,
treating the historical misspelling "neighborhood" as an alias of
"neighbourhood" (§4.1 (b)); unknown tokens are rejected. -/
def parse_placetype : String → Option PlaceType
  | "country" => some .country
  | "region" => some .region
  | "county" => some .county
  | "locality" => some .locality
  | "neighbourhood" => some .neighbourhood
  | "neighborhood" => some .neighbourhood
  | "venue" => some .venue
  | "custom" => some .custom
  | _ => none

/-- The raw placetype value handed to a filter constructor: absent, one bare
token, or a list of tokens. -/
inductive PlacetypeInput where
  | unset
  | single (token : String)
  | listOf (tokens : List String)
deriving DecidableEq, Repr

/-- A normalized placetype filter value: one enum value or a list of them. -/
inductive NormalizedPlacetype where
  | one (pt : PlaceType)
  | many (pts : List PlaceType)
deriving DecidableEq, Repr

/-- Parse every token of a placetype list, failing on the first unknown
token with a validation error naming the offending field (§4.1 (a)). -/
def parse_placetype_tokens : List String → Except String (List PlaceType)
  | [] => .ok []
  | tok :: rest =>
    match parse_placetype tok with
    | some pt => (parse_placetype_tokens rest).map (fun pts => pt :: pts)
    | none => .error "placetype: invalid placetype token"

/-- Modelled from the spec: normalization of the raw placetype field during
filter construction (§4.1 (a), (b)). -/
def normalize_placetype_input : PlacetypeInput → Except String (Option NormalizedPlacetype)
  | .unset => .ok none
  | .single tok =>
    match parse_placetype tok with
    | some pt => .ok (some (.one pt))
    | none => .error "placetype: invalid placetype token"
  | .listOf toks => (parse_placetype_tokens toks).map (fun pts => some (.many pts))

/-- `true` when an optional integer is present and non-positive. -/
def option_nonpositive : Option Int → Bool
  | some v => decide (v ≤ 0)
  | none => false

/-- `true` when an optional integer is present and negative. -/
def option_negative : Option Int → Bool
  | some v => decide (v < 0)
  | none => false

/-- A constructed search filter (the fields the claims are about, with the
§4.1 (c) defaults `name_language="eng"`, `name_type="preferred"`,
`name_exact=False`). -/
structure WOFSearchFilters where
  placetype : Option NormalizedPlacetype
  name : Option String
  name_exact : Bool
  name_language : String
  name_type : String
  parent_id : Option Int
  ancestor_id : Option Int
  country : Option String
  limit : Option Int
  offset : Option Int
deriving DecidableEq, Repr

/-- Modelled from the spec: the validating `WOFSearchFilters` constructor of
the missing `wof_explorer/models/filters.py`: normalization of the placetype
field and eager validation of `limit > 0` and `offset ≥ 0` (§4.1, §7). -/
def mk_search_filters (placetype : PlacetypeInput) (name : Option String)
    (parent_id ancestor_id : Option Int) (country : Option String)
    (limit offset : Option Int) : Except String WOFSearchFilters :=
  match normalize_placetype_input placetype with
  | .error e => .error e
  | .ok pt =>
    if option_nonpositive limit then .error "limit must be greater than 0"
    else if option_negative offset then .error "offset must be greater than or equal to 0"
    else .ok ⟨pt, name, false, "eng", "preferred", parent_id, ancestor_id, country, limit, offset⟩

/-- A constructed navigation filter (`WOFFilters`). -/
structure WOFFilters where
  placetype : Option PlaceType
  placetypes : Option (List PlaceType)
  is_current : Option Bool
  max_depth : Option Int
  limit : Option Int
deriving DecidableEq, Repr

/-- Parse an optional bare placetype token. -/
def parse_opt_placetype : Option String → Except String (Option PlaceType)
  | none => .ok none
  | some tok =>
    match parse_placetype tok with
    | some pt => .ok (some pt)
    | none => .error "placetype: invalid placetype token"

/-- Parse an optional list of placetype tokens. -/
def parse_opt_placetype_list : Option (List String) →
    Except String (Option (List PlaceType))
  | none => .ok none
  | some toks => (parse_placetype_tokens toks).map some

/-- Modelled from the spec: the validating `WOFFilters` (navigation filter)
constructor of the missing `wof_explorer/models/filters.py`: placetype
normalization plus eager validation of `max_depth > 0` and `limit > 0`
(§3 "Filters", §7). -/
def mk_wof_filters (placetype : Option String) (placetypes : Option (List String))
    (is_current : Option Bool) (max_depth limit : Option Int) :
    Except String WOFFilters :=
  match parse_opt_placetype placetype with
  | .error e => .error e
  | .ok pt =>
    match parse_opt_placetype_list placetypes with
    | .error e => .error e
    | .ok pts =>
      if option_nonpositive max_depth then .error "max_depth must be greater than 0"
      else if option_nonpositive limit then .error "limit must be greater than 0"
      else .ok ⟨pt, pts, is_current, max_depth, limit⟩

/-- Modelled from the spec: `WOFFilters.get_placetype_list()` of the missing
`wof_explorer/models/filters.py`: the `placetypes` list wins when set,
otherwise a set single `placetype` is wrapped in a one-element list,
otherwise the result is absent. -/
def WOFFilters.get_placetype_list (f : WOFFilters) : Option (List PlaceType) :=
  match f.placetypes with
  | some pts => some pts
  | none =>
    match f.placetype with
    | some pt => some [pt]
    | none => none

/-- An unknown token anywhere in a placetype token list makes parsing fail
with the placetype validation error. -/
theorem parse_placetype_tokens_error (toks : List String) (tok : String)
    (hmem : tok ∈ toks) (hbad : parse_placetype tok = none) :
    parse_placetype_tokens toks = .error "placetype: invalid placetype token" := by
  induction toks with
  | nil => cases hmem
  | cons head rest ih =>
    rcases List.mem_cons.mp hmem with rfl | hmem2
    · simp [parse_placetype_tokens, hbad]
    · cases hp : parse_placetype head with
      | none => simp [parse_placetype_tokens, hp]
      | some pt => simp [parse_placetype_tokens, hp, ih hmem2, Except.map]

/-- **C7.** Filter construction validates eagerly: a non-positive `limit`, a
negative `offset`, a non-positive `max_depth`, and an unknown placetype token
(bare or inside a list) each raise a validation error at construction time,
while the alias "neighborhood" folds to the `neighbourhood` placetype and
construction succeeds. -/
theorem filter_validation_c7 (l o d : Int) (tok : String) (toks : List String) :
    (l ≤ 0 → mk_search_filters .unset none none none none (some l) none =
      .error "limit must be greater than 0") ∧
    (o < 0 → mk_search_filters .unset none none none none none (some o) =
      .error "offset must be greater than or equal to 0") ∧
    (d ≤ 0 → mk_wof_filters none none none (some d) none =
      .error "max_depth must be greater than 0") ∧
    (parse_placetype tok = none →
      mk_search_filters (.single tok) none none none none none none =
        .error "placetype: invalid placetype token") ∧
    (tok ∈ toks → parse_placetype tok = none →
      mk_search_filters (.listOf toks) none none none none none none =
        .error "placetype: invalid placetype token") ∧
    parse_placetype "neighborhood" = some .neighbourhood ∧
    mk_search_filters (.single "neighborhood") none none none none none none =
      .ok ⟨some (.one .neighbourhood), none, false, "eng", "preferred",
        none, none, none, none, none⟩ := by
  refine ⟨fun h => ?_, fun h => ?_, fun h => ?_, fun h => ?_, fun hmem h => ?_, rfl, rfl⟩
  · simp [mk_search_filters, normalize_placetype_input, option_nonpositive, h]
  · simp [mk_search_filters, normalize_placetype_input, option_nonpositive,
      option_negative, h]
  · simp [mk_wof_filters, parse_opt_placetype, parse_opt_placetype_list,
      option_nonpositive, h]
  · simp [mk_search_filters, normalize_placetype_input, h]
  · simp [mk_search_filters, normalize_placetype_input,
      parse_placetype_tokens_error toks tok hmem h, Except.map]

/-- Witness for C7 at the concrete values of the repository's filter tests:
`limit=0`, `offset=-1`, `max_depth=0`, the unknown token "invalid_type"
(bare and inside the list of `test_placetype_list_with_invalid_item`), and
the alias "neighborhood". -/
theorem filter_validation_c7_witness :
    mk_search_filters .unset none none none none (some 0) none =
      .error "limit must be greater than 0" ∧
    mk_search_filters .unset none none none none none (some (-1)) =
      .error "offset must be greater than or equal to 0" ∧
    mk_wof_filters none none none (some 0) none =
      .error "max_depth must be greater than 0" ∧
    mk_search_filters (.single "invalid_type") none none none none none none =
      .error "placetype: invalid placetype token" ∧
    mk_search_filters (.listOf ["locality", "invalid_type"]) none none none none none none =
      .error "placetype: invalid placetype token" ∧
    mk_search_filters (.single "neighborhood") none none none none none none =
      .ok ⟨some (.one .neighbourhood), none, false, "eng", "preferred",
        none, none, none, none, none⟩ :=
  ⟨(filter_validation_c7 0 0 1 "x" []).1 (by decide),
    (filter_validation_c7 0 (-1) 1 "x" []).2.1 (by decide),
    (filter_validation_c7 0 0 0 "x" []).2.2.1 (by decide),
    (filter_validation_c7 0 0 1 "invalid_type" []).2.2.2.1 rfl,
    (filter_validation_c7 0 0 1 "invalid_type" ["locality", "invalid_type"]).2.2.2.2.1
      (by decide) rfl,
    (filter_validation_c7 0 0 1 "x" []).2.2.2.2.2.2⟩

/-- A constructed batch filter. -/
structure WOFBatchFilter where
  place_ids : List Int
  include_geometry : Bool
  include_names : Bool
  include_ancestors : Bool
deriving DecidableEq, Repr

/-- Modelled from the spec: the validating `WOFBatchFilter` constructor of
the missing `wof_explorer/models/filters.py`: the id list must have between
1 and 1000 items (tests `test_batch_filter_empty_list_validation` and
`test_batch_filter_max_length_validation`); the include flags default to
false. -/
def mk_batch_filter (place_ids : List Int) : Except String WOFBatchFilter :=
  if place_ids.length < 1 then
    .error "place_ids must contain at least 1 item"
  else if place_ids.length > 1000 then
    .error "place_ids must contain at most 1000 items"
  else .ok ⟨place_ids, false, false, false⟩

/-- **C9.** `WOFBatchFilter` construction fails exactly when the id list is
empty or longer than 1000; every list of length 1 through 1000 is accepted
unchanged (with the default include flags). -/
theorem batch_filter_c9 (ids : List Int) :
    ((∃ e, mk_batch_filter ids = .error e) ↔ ids = [] ∨ 1000 < ids.length) ∧
    (1 ≤ ids.length → ids.length ≤ 1000 →
      mk_batch_filter ids = .ok ⟨ids, false, false, false⟩) := by
  constructor
  · constructor
    · rintro ⟨e, he⟩
      unfold mk_batch_filter at he
      split at he
      · rename_i hlt
        exact Or.inl (List.length_eq_zero.mp (by omega))
      · split at he
        · rename_i hgt
          exact Or.inr hgt
        · cases he
    · rintro (rfl | h)
      · exact ⟨"place_ids must contain at least 1 item", rfl⟩
      · refine ⟨"place_ids must contain at most 1000 items", ?_⟩
        unfold mk_batch_filter
        rw [if_neg (by omega), if_pos h]
  · intro h1 h2
    unfold mk_batch_filter
    rw [if_neg (by omega), if_neg (by omega)]

/-- Witness for C9 at the singleton list `[123]` of
`test_batch_filter_single_id`. -/
theorem batch_filter_c9_witness :
    (1 ≤ ([123] : List Int).length ∧ ([123] : List Int).length ≤ 1000) ∧
    mk_batch_filter [123] = .ok ⟨[123], false, false, false⟩ :=
  ⟨⟨by decide, by decide⟩, (batch_filter_c9 [123]).2 (by decide) (by decide)⟩

/-- **C10.** `get_placetype_list()` returns the `placetypes` list whenever it
is set (ignoring any single `placetype` also set), a one-element list around
`placetype` when only that is set, and nothing when neither is set. -/
theorem get_placetype_list_c10 (f : WOFFilters) :
    (∀ pts, f.placetypes = some pts → f.get_placetype_list = some pts) ∧
    (f.placetypes = none → ∀ pt, f.placetype = some pt →
      f.get_placetype_list = some [pt]) ∧
    (f.placetypes = none → f.placetype = none → f.get_placetype_list = none) := by
  refine ⟨fun pts h => ?_, fun h pt h2 => ?_, fun h h2 => ?_⟩ <;>
    simp_all [WOFFilters.get_placetype_list]

/-- Witness for C10 at the three concrete filters of the repository's
`get_placetype_list` tests: both fields set (the `placetypes` list wins),
only the single `placetype` set, and neither set. -/
theorem get_placetype_list_c10_witness :
    (WOFFilters.mk (some .locality) (some [.neighbourhood, .region]) none none
      none).get_placetype_list = some [.neighbourhood, .region] ∧
    (WOFFilters.mk (some .locality) none none none none).get_placetype_list =
      some [.locality] ∧
    (WOFFilters.mk none none none none none).get_placetype_list = none :=
  ⟨(get_placetype_list_c10 _).1 [.neighbourhood, .region] rfl,
    (get_placetype_list_c10 _).2.1 rfl .locality rfl,
    (get_placetype_list_c10 _).2.2 rfl rfl⟩

/-! ## Query builder (backends/sqlite/queries.py : SQLiteQueryBuilder)

The query plan is embedded as its where-clause: a list of predicates over the
rows of the mandatory `spr` table, conjoined by `run_search_query`.
Projection, ordering and pagination do not affect the claims settled here and
are not modelled. -/

/-- Which of the schema's tables the opened database actually has. The `spr`
table is mandatory, the others optional (§4.2). -/
structure SQLiteTables where
  has_spr : Bool
  has_names : Bool
  has_ancestors : Bool
  has_geojson : Bool
deriving DecidableEq, Repr

/-- A constructed query builder. -/
structure SQLiteQueryBuilder where
  tables : SQLiteTables
deriving DecidableEq, Repr

/-- Modelled from the spec: the `SQLiteQueryBuilder` constructor of the
missing `wof_explorer/backends/sqlite/queries.py` fails fast when the
mandatory `spr` table is absent (§4.2, test
`test_initialization_without_spr_raises_error`). -/
def SQLiteQueryBuilder.create (tables : SQLiteTables) :
    Except String SQLiteQueryBuilder :=
  if tables.has_spr then .ok ⟨tables⟩
  else .error "spr table is required"

/-- One row of the mandatory `spr` (places) table. -/
structure SprRow where
  id : Int
  name : String
  placetype : String
  country : String
  parent_id : Option Int
deriving DecidableEq, Repr

/-- One row of the optional `ancestors` table: `id` is the place, and
`ancestor_id` one of its transitive ancestors. -/
structure AncestorRow where
  id : Int
  ancestor_id : Int
deriving DecidableEq, Repr

/-- One row of the optional `geojson` (geometry) table. -/
structure GeomRow where
  id : Int
  body : String
deriving DecidableEq, Repr

/-- The logical database contents the embedded queries run against. -/
structure WOFSqliteDb where
  spr : List SprRow
  ancestors : List AncestorRow
  geojson : List GeomRow
deriving DecidableEq, Repr

/-- A where-clause predicate of an embedded query plan. `never_true` is the
intentionally-empty clause the builder compiles to SQL "1 = 0". -/
inductive WherePred where
  | never_true
  | parent_id_eq (pid : Int)
  | id_has_ancestor (aid : Int)
  | placetype_eq (pt : String)
  | placetype_in (pts : List String)
  | country_eq (c : String)
deriving DecidableEq, Repr

/-- Evaluate one where-clause predicate on one `spr` row. -/
def eval_where_pred (db : WOFSqliteDb) (p : WherePred) (row : SprRow) : Bool :=
  match p with
  | .never_true => false
  | .parent_id_eq pid => row.parent_id == some pid
  | .id_has_ancestor aid =>
      db.ancestors.any (fun a => a.id == row.id && a.ancestor_id == aid)
  | .placetype_eq pt => row.placetype == pt
  | .placetype_in pts => pts.contains row.placetype
  | .country_eq c => row.country == c

/-- Execute a single-predicate query: the `spr` rows satisfying it. -/
def run_query (db : WOFSqliteDb) (p : WherePred) : List SprRow :=
  db.spr.filter (eval_where_pred db p)

/-- Execute a search query plan: the `spr` rows satisfying every predicate
of its where-clause. -/
def run_search_query (db : WOFSqliteDb) (preds : List WherePred) : List SprRow :=
  db.spr.filter (fun row => preds.all (fun p => eval_where_pred db p row))

/-- Modelled from the spec: `build_hierarchy_query(place_id, direction)` of
the missing `wof_explorer/backends/sqlite/queries.py` (§4.2): `children` is a
direct parent-id equality; `descendants` needs the ancestors table and
degrades to the never-true predicate when that table is missing; any other
direction token also degrades to the never-true predicate. The function is
total: no direction and no table configuration raises. -/
def build_hierarchy_query (b : SQLiteQueryBuilder) (place_id : Int)
    (direction : String) : WherePred :=
  if direction = "children" then .parent_id_eq place_id
  else if direction = "descendants" then
    if b.tables.has_ancestors then .id_has_ancestor place_id
    else .never_true
  else .never_true

/-- Modelled from the spec: the where-clause of `build_search_query(filters)`
of the missing `wof_explorer/backends/sqlite/queries.py` for the filter
dimensions the claims are about: placetype (equality or membership), country,
parent id, and the ancestor filter, which needs the ancestors table and is
silently dropped when that table is missing (§4.2, and the comment of test
`test_search_query_ancestor_without_ancestors_table`: "the ancestor filter
won't be applied"). -/
def build_search_query (b : SQLiteQueryBuilder) (f : WOFSearchFilters) :
    List WherePred :=
  (match f.placetype with
    | some (.one pt) => [WherePred.placetype_eq (placetype_code pt)]
    | some (.many pts) => [WherePred.placetype_in (pts.map placetype_code)]
    | none => []) ++
  (match f.country with
    | some c => [WherePred.country_eq c]
    | none => []) ++
  (match f.parent_id with
    | some pid => [WherePred.parent_id_eq pid]
    | none => []) ++
  (if b.tables.has_ancestors then
    match f.ancestor_id with
    | some aid => [WherePred.id_has_ancestor aid]
    | none => []
  else [])

/-- The never-true predicate selects no rows: its result set is empty on
every database. -/
theorem run_query_never_true (db : WOFSqliteDb) :
    run_query db .never_true = [] := by
  simp [run_query, eval_where_pred]

/-- **C5.** For every place id: building the hierarchy query with direction
`descendants` against a builder without the ancestors table, or with an
unrecognized direction token, yields the never-true predicate, whose result
set is empty on every database (and the builder is a total function: it never
raises); direction `children` is the direct parent-id equality predicate. -/
theorem hierarchy_query_c5 (b : SQLiteQueryBuilder) (place_id : Int)
    (direction : String) (db : WOFSqliteDb) :
    (b.tables.has_ancestors = false →
      build_hierarchy_query b place_id "descendants" = .never_true ∧
      run_query db (build_hierarchy_query b place_id "descendants") = []) ∧
    (direction ≠ "children" → direction ≠ "descendants" →
      build_hierarchy_query b place_id direction = .never_true ∧
      run_query db (build_hierarchy_query b place_id direction) = []) ∧
    build_hierarchy_query b place_id "children" = .parent_id_eq place_id := by
  refine ⟨fun hna => ?_, fun hc hd => ?_, by simp [build_hierarchy_query]⟩
  · have hq : build_hierarchy_query b place_id "descendants" = .never_true := by
      simp [build_hierarchy_query, hna]
    exact ⟨hq, by rw [hq, run_query_never_true]⟩
  · have hq : build_hierarchy_query b place_id direction = .never_true := by
      simp [build_hierarchy_query, hc, hd]
    exact ⟨hq, by rw [hq, run_query_never_true]⟩

/-- The `spr` row used as concrete data by the witnesses below (Moore Hill,
a Barbados locality of the repository's test data, child of Saint Michael). -/
def sample_row : SprRow := ⟨1326720241, "Moore Hill", "locality", "BB", some 85670295⟩

/-- A one-place database without ancestor rows. -/
def sample_db : WOFSqliteDb := ⟨[sample_row], [], []⟩

/-- A builder over a database lacking only the ancestors table. -/
def no_ancestors_builder : SQLiteQueryBuilder := ⟨⟨true, true, false, true⟩⟩

/-- A builder over a database with every table. -/
def all_tables_builder : SQLiteQueryBuilder := ⟨⟨true, true, true, true⟩⟩

/-- Witness for C5 at the Barbados place id of the repository's hierarchy
query tests, the direction token "unsupported_direction", and the one-place
sample database. -/
theorem hierarchy_query_c5_witness :
    (build_hierarchy_query no_ancestors_builder 85632491 "descendants" =
        .never_true ∧
      run_query sample_db
        (build_hierarchy_query no_ancestors_builder 85632491 "descendants") = []) ∧
    (build_hierarchy_query all_tables_builder 85632491 "unsupported_direction" =
        .never_true ∧
      run_query sample_db
        (build_hierarchy_query all_tables_builder 85632491 "unsupported_direction") =
        []) ∧
    build_hierarchy_query all_tables_builder 85632491 "children" =
      .parent_id_eq 85632491 :=
  ⟨(hierarchy_query_c5 no_ancestors_builder 85632491 "x" sample_db).1 rfl,
    (hierarchy_query_c5 all_tables_builder 85632491 "unsupported_direction"
      sample_db).2.1 (by decide) (by decide),
    (hierarchy_query_c5 all_tables_builder 85632491 "x" sample_db).2.2⟩

/-- A search filter whose only set field is `ancestor_id` (the filter of
`test_search_query_ancestor_without_ancestors_table`). -/
def ancestor_only_filters : WOFSearchFilters :=
  ⟨none, none, false, "eng", "preferred", none, some 85632491, none, none, none⟩

/-- **C6 counterexample.** The claim states that executing a search query
with an `ancestor_id` filter against a builder without the ancestors table
returns an *empty* result set. On the one-place sample database the dropped
filter leaves the query's where-clause empty, so the query returns the whole
`spr` table — one row, not the empty set. -/
theorem search_ancestor_c6_counterexample :
    no_ancestors_builder.tables.has_ancestors = false ∧
    ancestor_only_filters.ancestor_id = some 85632491 ∧
    build_search_query no_ancestors_builder ancestor_only_filters = [] ∧
    run_search_query sample_db
      (build_search_query no_ancestors_builder ancestor_only_filters) =
      [sample_row] ∧
    run_search_query sample_db
      (build_search_query no_ancestors_builder ancestor_only_filters) ≠ [] := by
  refine ⟨rfl, rfl, rfl, rfl, ?_⟩
  decide

/-- **C6 (amended).** For a builder without the ancestors table, building a
search query with an `ancestor_id` filter never raises (the builder is a
total function); the ancestor filter is silently dropped: the built query,
and hence its result set on every database, is identical to that of the same
filter with `ancestor_id` unset — the base-filtered rows, not necessarily the
empty set. -/
theorem search_ancestor_c6_amended (db : WOFSqliteDb) (b : SQLiteQueryBuilder)
    (f : WOFSearchFilters) (hna : b.tables.has_ancestors = false) :
    build_search_query b f = build_search_query b { f with ancestor_id := none } ∧
    run_search_query db (build_search_query b f) =
      run_search_query db (build_search_query b { f with ancestor_id := none }) := by
  have hq : build_search_query b f =
      build_search_query b { f with ancestor_id := none } := by
    simp [build_search_query, hna]
  exact ⟨hq, by rw [hq]⟩

/-- Witness for the amended C6 at the sample database and the
`ancestor_id`-only filter: the built query equals the one built from the
filter with `ancestor_id` unset. -/
theorem search_ancestor_c6_amended_witness :
    build_search_query no_ancestors_builder ancestor_only_filters =
      build_search_query no_ancestors_builder
        { ancestor_only_filters with ancestor_id := none } ∧
    run_search_query sample_db
      (build_search_query no_ancestors_builder ancestor_only_filters) =
      run_search_query sample_db
        (build_search_query no_ancestors_builder
          { ancestor_only_filters with ancestor_id := none }) :=
  search_ancestor_c6_amended sample_db no_ancestors_builder ancestor_only_filters rfl

/-! ## Search cursor two-phase fetch (processing/cursors.py : WOFSearchCursor) -/

/-- A place as returned by a cursor. A lightweight place has no geometry
attribute at all; only a place produced by a geometry-inclusive fetch carries
one (possibly unpopulated when the geometry table has no row for its id),
mirroring the `WOFPlace` / `WOFPlaceWithGeometry` split of the repository. -/
inductive FetchedPlace where
  | lightweight (row : SprRow)
  | withGeometry (row : SprRow) (geometry : Option String)
deriving DecidableEq, Repr

/-- Whether the returned place carries a geometry attribute (the embedding of
Python's `hasattr(place, "geometry")`). -/
def FetchedPlace.has_geometry_attr : FetchedPlace → Bool
  | .lightweight _ => false
  | .withGeometry _ _ => true

/-- A search cursor: the lightweight `spr` rows fetched once at construction
(§4.3; the row set is fixed and read-only afterwards). -/
structure WOFSearchCursor where
  rows : List SprRow
deriving DecidableEq, Repr

/-- The geometry table lookup performed by a geometry-inclusive fetch: the
body of the `geojson` row for the place id, when present. -/
def lookup_geometry (db : WOFSqliteDb) (pid : Int) : Option String :=
  (db.geojson.find? (fun g => g.id == pid)).map GeomRow.body

/-- The cursor's direct (lightweight) row access: `cursor.places`,
iteration, and indexing all expose these rows. -/
def WOFSearchCursor.places (c : WOFSearchCursor) : List FetchedPlace :=
  c.rows.map .lightweight

/-- Modelled from the spec: `fetch_all(include_geometry)` of the missing
`wof_explorer/processing/cursors.py` (§4.3 two-phase contract): without
geometry it returns the lightweight rows; with geometry it performs one
additional lookup against the geometry table for exactly the cursor's rows
and attaches the result as the geometry attribute. -/
def WOFSearchCursor.fetch_all (c : WOFSearchCursor) (db : WOFSqliteDb) :
    Bool → List FetchedPlace
  | true => c.rows.map (fun r => .withGeometry r (lookup_geometry db r.id))
  | false => c.rows.map .lightweight

/-- The geometry lookup succeeds exactly when the geometry table has a row
for the id. -/
theorem find_geom_isSome_any (l : List GeomRow) (pid : Int) :
    ((l.find? (fun g => g.id == pid)).map GeomRow.body).isSome =
      l.any (fun g => g.id == pid) := by
  induction l with
  | nil => rfl
  | cons h t ih =>
    rw [List.find?_cons, List.any_cons]
    cases hc : (h.id == pid) <;> simp [hc, ih]

/-- **C4.** Two-phase fetch contract: `fetch_all(include_geometry=False)`
returns places none of which carry a geometry attribute;
`fetch_all(include_geometry=True)` returns places that all carry one, each
being one of the cursor's rows with the geometry attribute populated exactly
when the backing geometry table has a row for that place id; and the
lightweight rows exposed at cursor construction never carry geometry. -/
theorem cursor_fetch_c4 (db : WOFSqliteDb) (c : WOFSearchCursor) :
    (∀ p ∈ c.fetch_all db false, p.has_geometry_attr = false) ∧
    (∀ p ∈ c.fetch_all db true, p.has_geometry_attr = true) ∧
    (∀ p ∈ c.fetch_all db true, ∃ r ∈ c.rows,
      p = .withGeometry r (lookup_geometry db r.id) ∧
      (lookup_geometry db r.id).isSome =
        db.geojson.any (fun g => g.id == r.id)) ∧
    (∀ p ∈ c.places, p.has_geometry_attr = false) := by
  refine ⟨?_, ?_, ?_, ?_⟩
  · intro p hp
    obtain ⟨r, _, rfl⟩ := List.mem_map.mp hp
    rfl
  · intro p hp
    obtain ⟨r, _, rfl⟩ := List.mem_map.mp hp
    rfl
  · intro p hp
    obtain ⟨r, hr, rfl⟩ := List.mem_map.mp hp
    exact ⟨r, hr, rfl, find_geom_isSome_any db.geojson r.id⟩
  · intro p hp
    obtain ⟨r, _, rfl⟩ := List.mem_map.mp hp
    rfl

/-- A database that also has a geometry row for the sample place. -/
def sample_geom_db : WOFSqliteDb :=
  ⟨[sample_row], [], [⟨1326720241, "sample-polygon-body"⟩]⟩

/-- The cursor constructed over the sample search result. -/
def sample_cursor : WOFSearchCursor := ⟨[sample_row]⟩

/-- Witness for C4 at a one-row cursor over a database whose geometry table
has a body for the row's id: the lightweight fetch result carries no
geometry attribute, the geometry-inclusive fetch result carries a populated
one, and the constructed-time row carries none. -/
theorem cursor_fetch_c4_witness :
    FetchedPlace.has_geometry_attr (.lightweight sample_row) = false ∧
    FetchedPlace.has_geometry_attr
      (.withGeometry sample_row (some "sample-polygon-body")) = true ∧
    (∃ r ∈ sample_cursor.rows,
      FetchedPlace.withGeometry sample_row (some "sample-polygon-body") =
        .withGeometry r (lookup_geometry sample_geom_db r.id) ∧
      (lookup_geometry sample_geom_db r.id).isSome =
        sample_geom_db.geojson.any (fun g => g.id == r.id)) :=
  ⟨(cursor_fetch_c4 sample_geom_db sample_cursor).1
      (.lightweight sample_row) (by decide),
    (cursor_fetch_c4 sample_geom_db sample_cursor).2.1
      (.withGeometry sample_row (some "sample-polygon-body")) (by decide),
    (cursor_fetch_c4 sample_geom_db sample_cursor).2.2.1
      (.withGeometry sample_row (some "sample-polygon-body")) (by decide)⟩

end WofExplorer
